import Mathlib

/-!
Verification of the Python wrapper `src/rig_c_scp/c_scp_connection.py`
(class `CSCPConnection`) of the rig-scp repository, together with the CFFI
interface declaration `src/rig_c_scp/cffi_compile.py`.

The wrapper dispatches completions of asynchronous SCP operations to user
callbacks, manages an intake queue of task closures executed on a libuv
event-loop thread, and tears the underlying C engine down on close or
reconfiguration.  Pure completion logic (`_report_error`, `_on_scp_cb`,
`_on_write_cb`, `_on_read_cb`, the buffer handling of `send_scp`) is embedded
as Lean functions on lists of bytes; the connection lifecycle (intake queue,
`close`, `_on_wakeup`, `_on_free`, the `scp_data_length` and `n_outstanding`
setters) is embedded as an explicit state machine whose engine thread is run
deterministically.  Byte strings are `List Nat`; unbounded Python integers
are `Nat`.
-/

namespace RigCScp

/-- The canonical OK SCP return code, `SCPReturnCodes.ok` (value 0x80) from
the external rig library imported by the wrapper. -/
def SCPReturnCodes_ok : Nat := 0x80

/-- Modelled from the spec: the engine error-name table.  The C sources
(`rs.c`) are not under `src/`; the cdef in `src/rig_c_scp/cffi_compile.py`
fixes the codes RS_EBAD_RC = 1, RS_ETIMEOUT = 2, RS_EFREE = 3, and the spec
taxonomy lists exactly BAD_RC, TIMEOUT and FREED as runtime errors.  Any
other nonzero code maps to some name distinct from the two the wrapper
branches on. -/
def rs_err_name : Nat → String
  | 1 => "RS_EBAD_RC"
  | 2 => "RS_ETIMEOUT"
  | 3 => "RS_EFREE"
  | _ => "RS_EUNKNOWN"

/-- Modelled from the spec: the human-readable error string of the engine
(`rs_strerror` in the C sources, not under `src/`).  Only ever interpolated
into an exception message, never branched on by the wrapper. -/
def rs_strerror (error : Nat) : String := "engine error " ++ toString error

/-- The subset of the rig `SCPPacket` fields constructed by the wrapper.
Field defaults belong to the external rig library and are immaterial to the
claims; every field a claim mentions is set explicitly by the wrapper. -/
structure SCPPacket where
  reply_expected : Bool := false
  tag : Nat := 0xff
  dest_port : Nat := 0
  dest_cpu : Nat := 0
  src_port : Nat := 7
  src_cpu : Nat := 31
  dest_x : Nat := 0
  dest_y : Nat := 0
  src_x : Nat := 0
  src_y : Nat := 0
  cmd_rc : Option Nat := none
  seq : Option Nat := none
  arg1 : Option Nat := none
  arg2 : Option Nat := none
  arg3 : Option Nat := none
  data : List Nat := []
deriving DecidableEq, Repr

/-- The exception values the wrapper can pass to an `on_error` callback:
`FatalReturnCodeError`, `TimeoutError` and generic `SCPError` from the rig
library. -/
inductive PyError where
  | FatalReturnCodeError (cmd_rc : Nat) (packet : SCPPacket)
  | TimeoutError (packet : SCPPacket)
  | SCPError (message : String) (packet : SCPPacket)
deriving DecidableEq, Repr

/-- The `_Callback` container of `c_scp_connection.py`.  The `on_success`
and `on_error` fields record whether the caller supplied the respective
callback (`True` models a present callback, `False` models Python `None`);
`x`, `y`, `p` and `cmd` are always passed as integers by all three
submission methods, so they are plain `Nat` here. -/
structure Callback where
  on_success : Bool
  on_error : Bool
  buffer : List Nat := []
  x : Nat
  y : Nat
  p : Nat
  cmd : Nat
  arg1 : Option Nat := none
  arg2 : Option Nat := none
  arg3 : Option Nat := none
  data : List Nat := []
deriving DecidableEq, Repr

/-- `_Callback.__init__`: the argN fields are kept only when `n_args` is at
least N, otherwise they are `None`. -/
def mkCallback (on_success on_error : Bool) (buffer : List Nat)
    (x y p cmd : Nat) (n_args : Nat)
    (arg1 arg2 arg3 : Option Nat) (data : List Nat) : Callback :=
  { on_success := on_success, on_error := on_error, buffer := buffer,
    x := x, y := y, p := p, cmd := cmd,
    arg1 := if 1 ≤ n_args then arg1 else none,
    arg2 := if 2 ≤ n_args then arg2 else none,
    arg3 := if 3 ≤ n_args then arg3 else none,
    data := data }

/-- `_Callback.packet`: the reconstructed request descriptor attached to
error reports. -/
def Callback.packet (cb : Callback) : SCPPacket :=
  { reply_expected := true, tag := 0xff, dest_port := 0, dest_cpu := cb.p,
    src_port := 7, src_cpu := 31,
    dest_x := cb.x, dest_y := cb.y, src_x := 0, src_y := 0,
    cmd_rc := some cb.cmd, seq := none,
    arg1 := cb.arg1, arg2 := cb.arg2, arg3 := cb.arg3, data := cb.data }

/-- An invocation of a user callback, as observed by the caller. -/
inductive CbEvent where
  | scpSuccess (packet : SCPPacket)
  | writeSuccess
  | readSuccess (buffer : List Nat)
  | errorReport (e : PyError)
deriving DecidableEq, Repr

/-- Whether an event is an `on_error` invocation. -/
def CbEvent.isErrorEvent : CbEvent → Bool
  | .errorReport _ => true
  | _ => false

/-- Whether an event is an `on_success` invocation. -/
def CbEvent.isSuccessEvent : CbEvent → Bool
  | .errorReport _ => false
  | _ => true

def hasErrorEvent (evs : List CbEvent) : Bool := evs.any CbEvent.isErrorEvent

def hasSuccessEvent (evs : List CbEvent) : Bool := evs.any CbEvent.isSuccessEvent

/-- `CSCPConnection._report_error`: returns `True` (first component) when an
error occurred, together with the `on_error` invocations it performed
(second component).  Mirrors the Python branch structure exactly: a nonzero
engine error is classified by its name, a zero engine error with a non-OK
return code becomes a `FatalReturnCodeError`, and in either case nothing is
invoked when `on_error` is `None`. -/
def report_error (error cmd_rc : Nat) (callback : Callback) :
    Bool × List CbEvent :=
  if error ≠ 0 then
    if callback.on_error then
      if rs_err_name error = "RS_EBAD_RC" then
        (true, [.errorReport (.FatalReturnCodeError cmd_rc callback.packet)])
      else if rs_err_name error = "RS_ETIMEOUT" then
        (true, [.errorReport (.TimeoutError callback.packet)])
      else
        (true, [.errorReport (.SCPError
          (rs_err_name error ++ ": " ++ rs_strerror error) callback.packet)])
    else (true, [])
  else if cmd_rc ≠ SCPReturnCodes_ok then
    if callback.on_error then
      (true, [.errorReport (.FatalReturnCodeError cmd_rc callback.packet)])
    else (true, [])
  else (false, [])

/-- `CSCPConnection._on_scp_cb`: the completion callback of `send_scp`.
Returns the user callback invocations, in order.  When `_report_error`
reports no error and `on_success` is present, the success callback receives
an `SCPPacket` whose argN field is the reply value exactly when the reply
carried at least N arguments. -/
def on_scp_cb (error cmd_rc n_args arg1 arg2 arg3 : Nat) (data : List Nat)
    (callback : Callback) : List CbEvent :=
  let r := report_error error cmd_rc callback
  r.2 ++ (if !r.1 && callback.on_success then
    [.scpSuccess { cmd_rc := some cmd_rc,
                   arg1 := if 1 ≤ n_args then some arg1 else none,
                   arg2 := if 2 ≤ n_args then some arg2 else none,
                   arg3 := if 3 ≤ n_args then some arg3 else none,
                   data := data }]
    else [])

/-- `CSCPConnection._on_write_cb`: the completion callback of `write`. -/
def on_write_cb (error cmd_rc : Nat) (callback : Callback) : List CbEvent :=
  let r := report_error error cmd_rc callback
  r.2 ++ (if !r.1 && callback.on_success then [.writeSuccess] else [])

/-- `ffi.memmove(dst, src, n)` on byte buffers: the first `n` bytes of `dst`
are replaced by the first `n` bytes of `src`. -/
def memmove (dst src : List Nat) (n : Nat) : List Nat :=
  src.take n ++ dst.drop n

/-- `CSCPConnection._on_read_cb`: the completion callback of `read`.
Returns the caller buffer after the callback ran (first component; on
success the wrapper memmoves `min(data_buf.len, len(buffer))` bytes of the
returned data into it) and the user callback invocations (second
component); a successful read passes the mutated buffer to `on_success`. -/
def on_read_cb (error cmd_rc : Nat) (data : List Nat) (callback : Callback) :
    List Nat × List CbEvent :=
  let r := report_error error cmd_rc callback
  if r.1 then (callback.buffer, r.2)
  else if callback.on_success then
    let buf := memmove callback.buffer data
      (min data.length callback.buffer.length)
    (buf, r.2 ++ [.readSuccess buf])
  else (callback.buffer, r.2)

/-- The argument record of a `lib.rs_send_scp` call, following the positions
of the cdef in `src/rig_c_scp/cffi_compile.py` (the connection pointer and
the callback pointers are omitted).  The `data` field holds the meaningful
bytes of the outbound `uv_buf_t` (its `base` up to its `len`). -/
structure RsSendScpCall where
  dest_addr : Nat
  dest_cpu : Nat
  cmd_rc : Nat
  n_args_send : Nat
  n_args_recv : Nat
  arg1 : Nat
  arg2 : Nat
  arg3 : Nat
  data : List Nat
  data_max_len : Nat
  timeout_ms : Nat
deriving DecidableEq, Repr

/-- The body of `CSCPConnection.send_scp` (the part the intake queue later
executes on the engine thread): builds the `_Callback`, allocates an
outbound buffer of `scp_data_length` bytes whose meaningful length is
`min(len(data), scp_data_length)`, memmoves that many bytes of the caller
data into it, and issues `rs_send_scp`.  The Python float `timeout` is
converted externally to integer milliseconds, taken here as `timeout_ms`. -/
def send_scp_body (scp_data_length : Nat) (x y p cmd arg1 arg2 arg3 : Nat)
    (data : List Nat) (expected_args timeout_ms : Nat)
    (on_success on_error : Bool) : Callback × RsSendScpCall :=
  let cb := mkCallback on_success on_error [] x y p cmd 3
    (some arg1) (some arg2) (some arg3) data
  let bufLen := min data.length scp_data_length
  (cb,
   { dest_addr := ((x % 256) <<< 8) ||| (y % 256),
     dest_cpu := p,
     cmd_rc := cmd,
     n_args_send := 3,
     n_args_recv := expected_args,
     arg1 := arg1, arg2 := arg2, arg3 := arg3,
     data := data.take bufLen,
     data_max_len := scp_data_length,
     timeout_ms := timeout_ms })

/-- The value parameters the cdef of `src/rig_c_scp/cffi_compile.py`
declares for `rs_init`, in order, after the `loop` and `addr` pointer
parameters: `scp_data_length`, `timeout`, `n_tries`, `n_outstanding`. -/
def rs_init_cdef_value_params : List String :=
  ["scp_data_length", "timeout", "n_tries", "n_outstanding"]

/-- The value arguments `CSCPConnection._rs_init` actually passes to
`lib.rs_init`, in order, after `self._loop` and `self._addrinfo.ai_addr`:
the configured `scp_data_length`, `n_tries` and `n_outstanding` attributes,
paired here with the attribute each value came from. -/
def rs_init_call_value_args (scp_data_length n_tries n_outstanding : Nat) :
    List (String × Nat) :=
  [("scp_data_length", scp_data_length),
   ("n_tries", n_tries),
   ("n_outstanding", n_outstanding)]

/-- The parameters `_rs_init` hands to the C engine when (re)creating it. -/
structure EngineCfg where
  scp_data_length : Nat
  n_outstanding : Nat
  n_tries : Nat
deriving DecidableEq, Repr

/-- A zero-argument closure placed on the intake queue by the
`_execute_in_bg_thread` decorator: either the body of a submission method
(`send_scp`, `write` or `read`, identified by the id of the request it will
hand to the engine) or the body of one of the two reconfiguring setters. -/
inductive Task where
  | op (reqId : Nat)
  | setScpDataLength (v : Nat)
  | setNOutstanding (v : Nat)
deriving DecidableEq, Repr

/-- Whether a task is a submission (send_scp / write / read) body. -/
def Task.isOp : Task → Bool
  | .op _ => true
  | _ => false

/-- The request ids of the submission tasks of a queue, in order. -/
def opIds : List Task → List Nat
  | [] => []
  | .op r :: ts => r :: opIds ts
  | _ :: ts => opIds ts

/-- The per-connection state touched by the engine thread (everything of
`CSCPConnection` except the intake queue itself).  `conn` is
`self._conn` (`none` while the engine is torn down); `inflight` models the
requests registered inside the C engine; `freedEvents` records, in order,
the requests the engine completed with the FREED error; `freeCalls` counts
the `lib.rs_free` invocations; `pendingFree` records that a `free_cb`
delivery is outstanding; `wakeupPending` records a signalled but not yet
processed `uv_async_send`; `loopStopped` records that `uv_stop` ran (after
which the background thread exits and joins). -/
structure Core where
  closed : Bool
  conn : Option EngineCfg
  scp_data_length : Nat
  n_outstanding : Nat
  n_tries : Nat
  inflight : List Nat
  freedEvents : List Nat
  freeCalls : Nat
  pendingFree : Bool
  wakeupPending : Bool
  loopStopped : Bool
deriving DecidableEq, Repr

/-- The whole connection state: the intake queue (`self._queue`, protected
by `self._lock`) plus the engine-side state. -/
structure ConnState where
  queue : List Task
  core : Core
deriving DecidableEq, Repr

/-- `CSCPConnection._wakeup`: `uv_async_send` on the wakeup handle. -/
def wakeup_signal (c : Core) : Core := { c with wakeupPending := true }

/-- `CSCPConnection._rs_free`: calls `lib.rs_free` on the current engine and
sets `self._conn = None`.  Modelled from the spec: the C side of `rs_free`
(`rs.c`, not under `src/`) completes every in-flight request with the FREED
error and then delivers the `free_cb`, which is recorded here by moving
`inflight` onto `freedEvents` and raising `pendingFree`. -/
def rs_free (c : Core) : Core :=
  { c with conn := none,
           pendingFree := true,
           freeCalls := c.freeCalls + 1,
           freedEvents := c.freedEvents ++ c.inflight,
           inflight := [] }

/-- `CSCPConnection._rs_init`: re-creates the engine from the current
attribute values. -/
def rs_init (c : Core) : Core :=
  { c with conn := some ⟨c.scp_data_length, c.n_outstanding, c.n_tries⟩ }

/-- Execution of one queued task closure on the engine thread.  A
submission body registers its request with the engine (`rs_send_scp`,
`rs_write` or `rs_read`); a setter body stores the new attribute value and
then calls `_rs_free` (`scp_data_length.setter` and `n_outstanding.setter`
in the source). -/
def runTask : Task → Core → Core
  | .op r, c => { c with inflight := c.inflight ++ [r] }
  | .setScpDataLength v, c => rs_free { c with scp_data_length := v }
  | .setNOutstanding v, c => rs_free { c with n_outstanding := v }

/-- The drain loop of `CSCPConnection._on_wakeup`:
`while self._queue and self._conn is not None: fn = popleft; fn()`.
Returns the remaining queue and the resulting engine state; no task is
popped while `self._conn` is `None`. -/
def drainLoop : List Task → Core → List Task × Core
  | [], c => ([], c)
  | t :: ts, c =>
    if c.conn.isSome then drainLoop ts (runTask t c)
    else (t :: ts, c)

/-- `CSCPConnection._on_wakeup`: drain the queue, then, when the connection
is closed, either re-signal the wakeup handle (queue not yet empty) or free
the engine (queue empty). -/
def onWakeup (s : ConnState) : ConnState :=
  let r := drainLoop s.queue s.core
  if r.2.closed then
    if r.1.isEmpty then ⟨r.1, rs_free r.2⟩
    else ⟨r.1, wakeup_signal r.2⟩
  else ⟨r.1, r.2⟩

/-- `CSCPConnection._on_free`: on teardown completion, stop the event loop
when closed, otherwise re-create the engine with the current attribute
values and process tasks queued while the engine was torn down. -/
def onFree (s : ConnState) : ConnState :=
  if s.core.closed then ⟨s.queue, { s.core with loopStopped := true }⟩
  else onWakeup ⟨s.queue, rs_init s.core⟩

/-- One scheduling step of the libuv event-loop thread: nothing runs once
the loop is stopped; otherwise a pending `free_cb` is delivered before a
pending wakeup (a deterministic rendering of libuv event delivery that
never starves the free completion).  `none` means the thread is idle. -/
def engineStep (s : ConnState) : Option ConnState :=
  if s.core.loopStopped then none
  else if s.core.pendingFree then
    some (onFree ⟨s.queue, { s.core with pendingFree := false }⟩)
  else if s.core.wakeupPending then
    some (onWakeup ⟨s.queue, { s.core with wakeupPending := false }⟩)
  else none

/-- Run the engine thread for at most `fuel` steps, stopping early when it
goes idle or the loop is stopped. -/
def runEngine : Nat → ConnState → ConnState
  | 0, s => s
  | fuel + 1, s =>
    match engineStep s with
    | none => s
    | some s2 => runEngine fuel s2

/-- The `_execute_in_bg_thread` decorator wrapping every submission method
and both setters: under the lock, when not closed, append one zero-argument
closure to the intake queue and signal the wakeup handle; when closed,
raise `IOError("CSCPConnection closed!")` to the caller. -/
def submit (s : ConnState) (t : Task) : Except String ConnState :=
  if s.core.closed then .error "CSCPConnection closed!"
  else .ok ⟨s.queue ++ [t], wakeup_signal s.core⟩

/-- `CSCPConnection.close`: set the closed flag under the lock, signal the
wakeup handle, and join the background thread.  The join is modelled by
running the engine thread to quiescence (four steps bound every post-close
schedule of this model); the returned state is the one `close` leaves
behind at return time. -/
def close (s : ConnState) : ConnState :=
  runEngine 4 ⟨s.queue, wakeup_signal { s.core with closed := true }⟩

/-- The externally observable part of a connection state: everything except
the two internal event-delivery flags (`wakeupPending`, `pendingFree`),
which no caller and no callback can see. -/
structure Obs where
  closed : Bool
  queue : List Task
  conn : Option EngineCfg
  scp_data_length : Nat
  n_outstanding : Nat
  n_tries : Nat
  inflight : List Nat
  freedEvents : List Nat
  freeCalls : Nat
  loopStopped : Bool
deriving DecidableEq, Repr

/-- Projection of a connection state onto its observable part. -/
def observables (s : ConnState) : Obs :=
  { closed := s.core.closed, queue := s.queue, conn := s.core.conn,
    scp_data_length := s.core.scp_data_length,
    n_outstanding := s.core.n_outstanding, n_tries := s.core.n_tries,
    inflight := s.core.inflight, freedEvents := s.core.freedEvents,
    freeCalls := s.core.freeCalls, loopStopped := s.core.loopStopped }

/-- A concrete callback container with both user callbacks supplied, as
built by `send_scp(x=1, y=2, p=3, cmd=4, ...)`. -/
def cbBoth : Callback :=
  { on_success := true, on_error := true, x := 1, y := 2, p := 3, cmd := 4,
    arg1 := some 5, arg2 := some 6, arg3 := some 7, data := [1, 2] }

/-- A concrete callback container with no user callbacks. -/
def cbNone : Callback :=
  { on_success := false, on_error := false, x := 1, y := 2, p := 3, cmd := 4 }

/-- A freshly created connection core with the constructor defaults of the
test fixture (`scp_data_length = 256`, `n_outstanding = 1`,
`n_tries = 5`), nothing queued, nothing in flight. -/
def freshCore : Core :=
  { closed := false, conn := some ⟨256, 1, 5⟩, scp_data_length := 256,
    n_outstanding := 1, n_tries := 5, inflight := [], freedEvents := [],
    freeCalls := 0, pendingFree := false, wakeupPending := false,
    loopStopped := false }

/-- The connection state reached from `freshCore` by submitting a
`scp_data_length = 5` reconfiguration followed by one operation, before the
engine thread has woken. -/
def reconfThenOpState : ConnState :=
  ⟨[.setScpDataLength 5, .op 7], wakeup_signal freshCore⟩

lemma report_error_ok (cb : Callback) :
    report_error 0 SCPReturnCodes_ok cb = (false, []) := by
  simp [report_error]

lemma report_error_fst_iff (error cmd_rc : Nat) (cb : Callback) :
    (report_error error cmd_rc cb).1 = true ↔
      (error ≠ 0 ∨ cmd_rc ≠ SCPReturnCodes_ok) := by
  unfold report_error
  split_ifs <;> simp_all

lemma report_error_snd_cases (error cmd_rc : Nat) (cb : Callback) :
    (report_error error cmd_rc cb).2 = [] ∨
      ∃ err, (report_error error cmd_rc cb).2 = [.errorReport err] := by
  unfold report_error
  split_ifs <;> simp

lemma report_error_no_success (error cmd_rc : Nat) (cb : Callback) :
    hasSuccessEvent (report_error error cmd_rc cb).2 = false := by
  rcases report_error_snd_cases error cmd_rc cb with h | ⟨err, h⟩ <;>
    simp [h, hasSuccessEvent, CbEvent.isSuccessEvent]

lemma report_error_error_iff (error cmd_rc : Nat) (cb : Callback) :
    hasErrorEvent (report_error error cmd_rc cb).2 = true ↔
      (cb.on_error = true ∧ (error ≠ 0 ∨ cmd_rc ≠ SCPReturnCodes_ok)) := by
  unfold report_error
  split_ifs <;>
    simp_all [hasErrorEvent, CbEvent.isErrorEvent, Bool.not_eq_true]

lemma report_error_snd_nil_of_no_cb (error cmd_rc : Nat) (cb : Callback)
    (h : cb.on_error = false) : (report_error error cmd_rc cb).2 = [] := by
  unfold report_error
  split_ifs <;> simp_all

lemma CbEvent.not_error_of_success {ev : CbEvent}
    (h : ev.isSuccessEvent = true) : ev.isErrorEvent = false := by
  cases ev <;> simp_all [CbEvent.isSuccessEvent, CbEvent.isErrorEvent]

lemma report_error_fst_false (error cmd_rc : Nat) (cb : Callback)
    (h : (report_error error cmd_rc cb).1 = false) :
    error = 0 ∧ cmd_rc = SCPReturnCodes_ok := by
  have := report_error_fst_iff error cmd_rc cb
  simp [h] at this
  tauto

/-- Shared shape of the three completion callbacks: the events of
`_report_error` followed by a single success event exactly when no error
was reported and `on_success` is present. -/
lemma dispatch_events_spec (error cmd_rc : Nat) (cb : Callback)
    (ev : CbEvent) (hev : ev.isSuccessEvent = true) :
    (hasSuccessEvent ((report_error error cmd_rc cb).2 ++
        (if !(report_error error cmd_rc cb).1 && cb.on_success
         then [ev] else [])) = true ↔
      (cb.on_success = true ∧ error = 0 ∧ cmd_rc = SCPReturnCodes_ok)) ∧
    (hasErrorEvent ((report_error error cmd_rc cb).2 ++
        (if !(report_error error cmd_rc cb).1 && cb.on_success
         then [ev] else [])) = true ↔
      (cb.on_error = true ∧ (error ≠ 0 ∨ cmd_rc ≠ SCPReturnCodes_ok))) ∧
    (cb.on_success = false → cb.on_error = false →
      ((report_error error cmd_rc cb).2 ++
        (if !(report_error error cmd_rc cb).1 && cb.on_success
         then [ev] else [])) = []) := by
  have hfst := report_error_fst_iff error cmd_rc cb
  have herr := report_error_error_iff error cmd_rc cb
  have hnos := report_error_no_success error cmd_rc cb
  by_cases h1 : (report_error error cmd_rc cb).1 = true
  · refine ⟨?_, ?_, ?_⟩
    · simp only [h1, Bool.not_true, Bool.false_and, if_neg Bool.false_ne_true,
        List.append_nil]
      constructor
      · intro hs
        rw [hs] at hnos
        exact absurd hnos (by simp)
      · rintro ⟨-, hz, hrc⟩
        exact absurd (hfst.mp h1) (by simp [hz, hrc])
    · simpa only [h1, Bool.not_true, Bool.false_and, if_neg Bool.false_ne_true,
        List.append_nil] using herr
    · intro hs he
      simp only [h1, Bool.not_true, Bool.false_and, if_neg Bool.false_ne_true,
        List.append_nil]
      exact report_error_snd_nil_of_no_cb error cmd_rc cb he
  · have h1f : (report_error error cmd_rc cb).1 = false := by
      simpa using h1
    obtain ⟨hz, hrc⟩ := report_error_fst_false error cmd_rc cb h1f
    subst hz hrc
    rw [report_error_ok]
    by_cases hos : cb.on_success = true
    · simp [hos, hasSuccessEvent, hasErrorEvent, hev,
        CbEvent.not_error_of_success hev]
    · simp only [Bool.not_eq_true] at hos
      simp [hos, hasSuccessEvent, hasErrorEvent]

lemma on_scp_cb_eq (error cmd_rc n_args arg1 arg2 arg3 : Nat)
    (data : List Nat) (cb : Callback) :
    on_scp_cb error cmd_rc n_args arg1 arg2 arg3 data cb =
      (report_error error cmd_rc cb).2 ++
        (if !(report_error error cmd_rc cb).1 && cb.on_success
         then [.scpSuccess { cmd_rc := some cmd_rc,
                             arg1 := if 1 ≤ n_args then some arg1 else none,
                             arg2 := if 2 ≤ n_args then some arg2 else none,
                             arg3 := if 3 ≤ n_args then some arg3 else none,
                             data := data }]
         else []) := rfl

lemma on_write_cb_eq (error cmd_rc : Nat) (cb : Callback) :
    on_write_cb error cmd_rc cb =
      (report_error error cmd_rc cb).2 ++
        (if !(report_error error cmd_rc cb).1 && cb.on_success
         then [.writeSuccess] else []) := rfl

lemma on_read_cb_snd_eq (error cmd_rc : Nat) (data : List Nat)
    (cb : Callback) :
    (on_read_cb error cmd_rc data cb).2 =
      (report_error error cmd_rc cb).2 ++
        (if !(report_error error cmd_rc cb).1 && cb.on_success
         then [.readSuccess (memmove cb.buffer data
                (min data.length cb.buffer.length))]
         else []) := by
  unfold on_read_cb
  rcases h1 : (report_error error cmd_rc cb).1 <;>
    rcases hos : cb.on_success <;> simp [h1, hos]

/-- Claim C1: for every completion of a `send_scp`, `write` or `read`
operation, `on_success` is invoked iff the engine reported no error and the
return code is OK (and the caller supplied `on_success`), `on_error` is
invoked iff an error or a non-OK return code was reported (and the caller
supplied `on_error`), the two are never invoked for the same completion,
and when both callbacks are absent the completion produces no user-visible
event at all (the handler still runs to completion). -/
theorem send_write_read_callback_exclusivity
    (error cmd_rc n_args arg1 arg2 arg3 : Nat) (data : List Nat)
    (cb : Callback) :
    (hasSuccessEvent (on_scp_cb error cmd_rc n_args arg1 arg2 arg3 data cb)
        = true ↔
      (cb.on_success = true ∧ error = 0 ∧ cmd_rc = SCPReturnCodes_ok)) ∧
    (hasErrorEvent (on_scp_cb error cmd_rc n_args arg1 arg2 arg3 data cb)
        = true ↔
      (cb.on_error = true ∧ (error ≠ 0 ∨ cmd_rc ≠ SCPReturnCodes_ok))) ∧
    ¬(hasSuccessEvent (on_scp_cb error cmd_rc n_args arg1 arg2 arg3 data cb)
        = true ∧
      hasErrorEvent (on_scp_cb error cmd_rc n_args arg1 arg2 arg3 data cb)
        = true) ∧
    (cb.on_success = false → cb.on_error = false →
      on_scp_cb error cmd_rc n_args arg1 arg2 arg3 data cb = []) ∧
    (hasSuccessEvent (on_write_cb error cmd_rc cb) = true ↔
      (cb.on_success = true ∧ error = 0 ∧ cmd_rc = SCPReturnCodes_ok)) ∧
    (hasErrorEvent (on_write_cb error cmd_rc cb) = true ↔
      (cb.on_error = true ∧ (error ≠ 0 ∨ cmd_rc ≠ SCPReturnCodes_ok))) ∧
    ¬(hasSuccessEvent (on_write_cb error cmd_rc cb) = true ∧
      hasErrorEvent (on_write_cb error cmd_rc cb) = true) ∧
    (cb.on_success = false → cb.on_error = false →
      on_write_cb error cmd_rc cb = []) ∧
    (hasSuccessEvent (on_read_cb error cmd_rc data cb).2 = true ↔
      (cb.on_success = true ∧ error = 0 ∧ cmd_rc = SCPReturnCodes_ok)) ∧
    (hasErrorEvent (on_read_cb error cmd_rc data cb).2 = true ↔
      (cb.on_error = true ∧ (error ≠ 0 ∨ cmd_rc ≠ SCPReturnCodes_ok))) ∧
    ¬(hasSuccessEvent (on_read_cb error cmd_rc data cb).2 = true ∧
      hasErrorEvent (on_read_cb error cmd_rc data cb).2 = true) ∧
    (cb.on_success = false → cb.on_error = false →
      (on_read_cb error cmd_rc data cb).2 = []) := by
  have hscp := dispatch_events_spec error cmd_rc cb
    (.scpSuccess { cmd_rc := some cmd_rc,
                   arg1 := if 1 ≤ n_args then some arg1 else none,
                   arg2 := if 2 ≤ n_args then some arg2 else none,
                   arg3 := if 3 ≤ n_args then some arg3 else none,
                   data := data }) rfl
  have hw := dispatch_events_spec error cmd_rc cb .writeSuccess rfl
  have hr := dispatch_events_spec error cmd_rc cb
    (.readSuccess (memmove cb.buffer data
      (min data.length cb.buffer.length))) rfl
  rw [on_scp_cb_eq] at *
  rw [on_write_cb_eq, on_read_cb_snd_eq]
  refine ⟨hscp.1, hscp.2.1, ?_, hscp.2.2, hw.1, hw.2.1, ?_, hw.2.2,
    hr.1, hr.2.1, ?_, hr.2.2⟩
  · rintro ⟨hs, he⟩
    obtain ⟨-, hz, hrc⟩ := hscp.1.mp hs
    obtain ⟨-, hbad⟩ := hscp.2.1.mp he
    simp [hz, hrc] at hbad
  · rintro ⟨hs, he⟩
    obtain ⟨-, hz, hrc⟩ := hw.1.mp hs
    obtain ⟨-, hbad⟩ := hw.2.1.mp he
    simp [hz, hrc] at hbad
  · rintro ⟨hs, he⟩
    obtain ⟨-, hz, hrc⟩ := hr.1.mp hs
    obtain ⟨-, hbad⟩ := hr.2.1.mp he
    simp [hz, hrc] at hbad

/-- Witness for C1 at a concrete completion: an OK reply with both
callbacks present yields a success invocation, and an erroring completion
with no callbacks yields no event. -/
theorem send_write_read_callback_exclusivity_witness :
    hasSuccessEvent (on_scp_cb 0 SCPReturnCodes_ok 3 1 2 3 [4] cbBoth)
      = true ∧
    on_scp_cb 9 0 3 1 2 3 [4] cbNone = [] :=
  ⟨(send_write_read_callback_exclusivity 0 SCPReturnCodes_ok 3 1 2 3 [4]
      cbBoth).1.mpr ⟨rfl, rfl, rfl⟩,
   (send_write_read_callback_exclusivity 9 0 3 1 2 3 [4]
      cbNone).2.2.2.1 rfl rfl⟩

lemma report_error_bad_rc (cmd_rc : Nat) (cb : Callback)
    (hrc : cmd_rc ≠ SCPReturnCodes_ok) :
    report_error 0 cmd_rc cb =
      (true,
       if cb.on_error
       then [.errorReport (.FatalReturnCodeError cmd_rc cb.packet)]
       else []) := by
  simp only [report_error, hrc]
  split_ifs <;> simp_all

/-- Claim C2: a completion with engine error zero but a non-OK return code
invokes `on_error` (when supplied) with a `FatalReturnCodeError` carrying
the return code and the reconstructed request descriptor, whose dest fields
are the request coordinates (x, y, p); `on_success` is never invoked for
such a completion; and when `on_error` is absent the failure produces no
event at all (silently consumed, the read buffer untouched). -/
theorem bad_rc_error_dispatch (cmd_rc n_args arg1 arg2 arg3 : Nat)
    (data : List Nat) (cb : Callback)
    (hrc : cmd_rc ≠ SCPReturnCodes_ok) :
    (cb.on_error = true →
      on_scp_cb 0 cmd_rc n_args arg1 arg2 arg3 data cb =
        [.errorReport (.FatalReturnCodeError cmd_rc cb.packet)] ∧
      on_write_cb 0 cmd_rc cb =
        [.errorReport (.FatalReturnCodeError cmd_rc cb.packet)] ∧
      (on_read_cb 0 cmd_rc data cb).2 =
        [.errorReport (.FatalReturnCodeError cmd_rc cb.packet)] ∧
      cb.packet.dest_x = cb.x ∧ cb.packet.dest_y = cb.y ∧
      cb.packet.dest_cpu = cb.p) ∧
    hasSuccessEvent (on_scp_cb 0 cmd_rc n_args arg1 arg2 arg3 data cb)
      = false ∧
    hasSuccessEvent (on_write_cb 0 cmd_rc cb) = false ∧
    hasSuccessEvent (on_read_cb 0 cmd_rc data cb).2 = false ∧
    (cb.on_error = false →
      on_scp_cb 0 cmd_rc n_args arg1 arg2 arg3 data cb = [] ∧
      on_write_cb 0 cmd_rc cb = [] ∧
      (on_read_cb 0 cmd_rc data cb).2 = [] ∧
      (on_read_cb 0 cmd_rc data cb).1 = cb.buffer) := by
  have hre := report_error_bad_rc cmd_rc cb hrc
  have hfst : (report_error 0 cmd_rc cb).1 = true := by rw [hre]
  refine ⟨?_, ?_, ?_, ?_, ?_⟩
  · intro he
    rw [on_scp_cb_eq, on_write_cb_eq, on_read_cb_snd_eq, hre]
    simp [he, Callback.packet]
  · rw [on_scp_cb_eq, hfst]
    simp [report_error_no_success]
  · rw [on_write_cb_eq, hfst]
    simp [report_error_no_success]
  · rw [on_read_cb_snd_eq, hfst]
    simp [report_error_no_success]
  · intro he
    rw [on_scp_cb_eq, on_write_cb_eq, on_read_cb_snd_eq, hre]
    unfold on_read_cb
    rw [hre]
    simp [he]

/-- Witness for C2 at a non-OK return code 0x88 against `cbBoth` and
`cbNone`. -/
theorem bad_rc_error_dispatch_witness :
    (0x88 : Nat) ≠ SCPReturnCodes_ok ∧
    on_write_cb 0 0x88 cbBoth =
      [.errorReport (.FatalReturnCodeError 0x88 cbBoth.packet)] ∧
    on_write_cb 0 0x88 cbNone = [] :=
  ⟨by decide,
   ((bad_rc_error_dispatch 0x88 3 1 2 3 [] cbBoth (by decide)).1
      rfl).2.1,
   ((bad_rc_error_dispatch 0x88 3 1 2 3 [] cbNone (by decide)).2.2.2.2
      rfl).2.1⟩

/-- Claim C8: a `send_scp` completion with an OK return code and `n_args`
reply arguments invokes `on_success` with a packet whose argN is the reply
value exactly when `n_args` is at least N and absent otherwise, and whose
data field is the response data; a reply with fewer arguments than the
requested `expected_args` still completes successfully (the completion
handler never reads `expected_args`). -/
theorem scp_success_reply_args (n_args arg1 arg2 arg3 expected_args : Nat)
    (data : List Nat) (cb : Callback) (hos : cb.on_success = true) :
    on_scp_cb 0 SCPReturnCodes_ok n_args arg1 arg2 arg3 data cb =
      [.scpSuccess { cmd_rc := some SCPReturnCodes_ok,
                     arg1 := if 1 ≤ n_args then some arg1 else none,
                     arg2 := if 2 ≤ n_args then some arg2 else none,
                     arg3 := if 3 ≤ n_args then some arg3 else none,
                     data := data }] ∧
    (n_args < expected_args →
      hasErrorEvent (on_scp_cb 0 SCPReturnCodes_ok n_args arg1 arg2 arg3
        data cb) = false) := by
  rw [on_scp_cb_eq, report_error_ok]
  simp [hos, hasErrorEvent, CbEvent.isErrorEvent]

/-- Witness for C8: a reply carrying one argument against expected 3
succeeds with `arg2` and `arg3` absent. -/
theorem scp_success_reply_args_witness :
    cbBoth.on_success = true ∧
    on_scp_cb 0 SCPReturnCodes_ok 1 10 20 30 [9] cbBoth =
      [.scpSuccess { cmd_rc := some SCPReturnCodes_ok, arg1 := some 10,
                     arg2 := none, arg3 := none, data := [9] }] ∧
    hasErrorEvent (on_scp_cb 0 SCPReturnCodes_ok 1 10 20 30 [9] cbBoth)
      = false :=
  ⟨rfl,
   by
    have h := (scp_success_reply_args 1 10 20 30 3 [9] cbBoth rfl).1
    simpa using h,
   (scp_success_reply_args 1 10 20 30 3 [9] cbBoth rfl).2 (by decide)⟩

lemma on_read_cb_ok (data : List Nat) (cb : Callback)
    (hos : cb.on_success = true) :
    on_read_cb 0 SCPReturnCodes_ok data cb =
      (memmove cb.buffer data (min data.length cb.buffer.length),
       [.readSuccess
          (memmove cb.buffer data (min data.length cb.buffer.length))]) := by
  unfold on_read_cb
  rw [report_error_ok]
  simp [hos]

/-- Claim C7: a bulk read of length L that completes successfully
overwrites exactly the first `min(L, |buffer|)` bytes of the caller buffer
with the data the engine returned, leaves every byte beyond that prefix
unchanged (the buffer length is preserved), and invokes `on_success` with
that same (mutated) buffer. -/
theorem read_success_buffer_effect (L : Nat) (data buffer : List Nat)
    (cb : Callback) (hL : data.length = L) (hbuf : cb.buffer = buffer)
    (hos : cb.on_success = true) :
    (on_read_cb 0 SCPReturnCodes_ok data cb).1.take (min L buffer.length)
        = data.take (min L buffer.length) ∧
    (on_read_cb 0 SCPReturnCodes_ok data cb).1.drop (min L buffer.length)
        = buffer.drop (min L buffer.length) ∧
    (on_read_cb 0 SCPReturnCodes_ok data cb).1.length = buffer.length ∧
    (on_read_cb 0 SCPReturnCodes_ok data cb).2 =
      [.readSuccess (on_read_cb 0 SCPReturnCodes_ok data cb).1] := by
  rw [on_read_cb_ok data cb hos, hbuf, hL]
  have hlen : (data.take (min L buffer.length)).length
      = min L buffer.length := by
    simp [List.length_take]
    omega
  refine ⟨?_, ?_, ?_, rfl⟩
  · rw [memmove, List.take_left' hlen]
  · rw [memmove, List.drop_left' hlen]
  · simp [memmove, List.length_take, List.length_drop]
    omega

/-- Witness for C7: reading 3 bytes into a 5-byte buffer overwrites the
first three bytes and keeps the last two. -/
theorem read_success_buffer_effect_witness :
    (on_read_cb 0 SCPReturnCodes_ok [7, 8, 9]
        { cbBoth with buffer := [0, 1, 2, 3, 4] }).1.take 3 = [7, 8, 9] ∧
    (on_read_cb 0 SCPReturnCodes_ok [7, 8, 9]
        { cbBoth with buffer := [0, 1, 2, 3, 4] }).1.drop 3 = [3, 4] := by
  have h := read_success_buffer_effect 3 [7, 8, 9] [0, 1, 2, 3, 4]
    { cbBoth with buffer := [0, 1, 2, 3, 4] } rfl rfl rfl
  exact ⟨by simpa using h.1, by simpa using h.2.1⟩

/-- Claim C10: the body of `send_scp` copies `min(len(data),
scp_data_length)` bytes of the caller data into the outbound buffer: data
longer than `scp_data_length` is silently truncated to its first
`scp_data_length` bytes, and data of length at most `scp_data_length` is
sent unchanged. -/
theorem send_scp_data_truncation (scp_data_length x y p cmd
    arg1 arg2 arg3 : Nat) (data : List Nat)
    (expected_args timeout_ms : Nat) (on_success on_error : Bool) :
    (send_scp_body scp_data_length x y p cmd arg1 arg2 arg3 data
        expected_args timeout_ms on_success on_error).2.data
      = data.take scp_data_length ∧
    (data.length ≤ scp_data_length →
      (send_scp_body scp_data_length x y p cmd arg1 arg2 arg3 data
          expected_args timeout_ms on_success on_error).2.data = data) ∧
    (scp_data_length < data.length →
      (send_scp_body scp_data_length x y p cmd arg1 arg2 arg3 data
          expected_args timeout_ms on_success on_error).2.data.length
        = scp_data_length) := by
  refine ⟨?_, ?_, ?_⟩
  · show data.take (min data.length scp_data_length)
        = data.take scp_data_length
    rw [List.take_eq_take]
    omega
  · intro h
    show data.take (min data.length scp_data_length) = data
    have : min data.length scp_data_length = data.length := by omega
    rw [this, List.take_length]
  · intro h
    show (data.take (min data.length scp_data_length)).length
        = scp_data_length
    simp [List.length_take]
    omega

/-- Witness for C10: a six-byte payload against `scp_data_length = 4` is
truncated to four bytes; a two-byte payload is kept whole. -/
theorem send_scp_data_truncation_witness :
    (send_scp_body 4 1 2 3 4 5 6 7 [9, 9, 9, 9, 9, 9] 3 500
        true true).2.data = [9, 9, 9, 9] ∧
    (send_scp_body 4 1 2 3 4 5 6 7 [8, 8] 3 500 true true).2.data
      = [8, 8] := by
  constructor
  · have h := (send_scp_data_truncation 4 1 2 3 4 5 6 7 [9, 9, 9, 9, 9, 9]
      3 500 true true).1
    simpa using h
  · exact (send_scp_data_truncation 4 1 2 3 4 5 6 7 [8, 8]
      3 500 true true).2.1 (by decide)

/-- Claim C6, code side: the cdef of `src/rig_c_scp/cffi_compile.py`
declares `rs_init` with four value parameters after the loop and address
pointers, in the order scp_data_length, timeout, n_tries, n_outstanding,
but `CSCPConnection._rs_init` passes only three value arguments, in the
order scp_data_length, n_tries, n_outstanding: the configured `n_tries`
occupies the declared `timeout` position, the configured `n_outstanding`
occupies the declared `n_tries` position, and the declared `n_outstanding`
position receives no argument at all, so the call does not supply the
configured values in the positions the declared interface expects (with
CFFI the call raises a TypeError for the arity mismatch).  Evaluated at the
constructor defaults n_tries = 5, n_outstanding = 1, scp_data_length =
256. -/
theorem rs_init_arity_mismatch :
    (rs_init_call_value_args 256 5 1).length = 3 ∧
    rs_init_cdef_value_params.length = 4 ∧
    (rs_init_call_value_args 256 5 1).map Prod.fst =
      ["scp_data_length", "n_tries", "n_outstanding"] ∧
    rs_init_cdef_value_params[1]? = some "timeout" ∧
    ((rs_init_call_value_args 256 5 1).map Prod.fst)[1]? = some "n_tries" ∧
    rs_init_cdef_value_params[2]? = some "n_tries" ∧
    ((rs_init_call_value_args 256 5 1).map Prod.fst)[2]?
      = some "n_outstanding" ∧
    (rs_init_call_value_args 256 5 1)[3]? = none := by
  decide

lemma drainLoop_none (q : List Task) (c : Core) (h : c.conn = none) :
    drainLoop q c = (q, c) := by
  cases q with
  | nil => rfl
  | cons t ts => simp [drainLoop, h]

lemma drainLoop_ops (q : List Task) (c : Core) (hc : c.conn.isSome = true)
    (hq : ∀ t ∈ q, t.isOp = true) :
    drainLoop q c = ([], { c with inflight := c.inflight ++ opIds q }) := by
  induction q generalizing c with
  | nil => simp [drainLoop, opIds]
  | cons t ts ih =>
    have ht : t.isOp = true := hq t (List.mem_cons_self t ts)
    cases t with
    | op r =>
      rw [drainLoop, if_pos hc]
      have hstep := ih { c with inflight := c.inflight ++ [r] }
        (by simpa using hc) (fun u hu => hq u (List.mem_cons_of_mem _ hu))
      rw [runTask, hstep]
      simp [opIds, List.append_assoc]
    | setScpDataLength v => simp [Task.isOp] at ht
    | setNOutstanding v => simp [Task.isOp] at ht

lemma runEngine_step (fuel : Nat) (s s2 : ConnState)
    (h : engineStep s = some s2) :
    runEngine (fuel + 1) s = runEngine fuel s2 := by
  rw [runEngine, h]

lemma runEngine_stopped (fuel : Nat) (s : ConnState)
    (h : s.core.loopStopped = true) : runEngine fuel s = s := by
  cases fuel with
  | zero => rfl
  | succ n =>
    rw [runEngine]
    simp [engineStep, h]

/-- Second close on an already closed and joined connection: observably a
no-op. -/
lemma close_of_stopped (s : ConnState) (hcl : s.core.closed = true)
    (hls : s.core.loopStopped = true) :
    observables (close s) = observables s := by
  obtain ⟨q, c⟩ := s
  unfold close
  rw [runEngine_stopped 4 _ (by simpa [wakeup_signal] using hls)]
  simp only at hcl
  simp [observables, wakeup_signal, hcl]

/-- Full characterization of `close` from a normally operating state whose
intake queue holds only submission tasks: the engine drains the queue,
frees the engine once, every in-flight request completes with FREED, and
the loop stops. -/
lemma close_ops_spec (s : ConnState)
    (hcl : s.core.closed = false) (hcn : s.core.conn.isSome = true)
    (hpf : s.core.pendingFree = false) (hls : s.core.loopStopped = false)
    (hq : ∀ t ∈ s.queue, t.isOp = true) :
    close s =
      ⟨[],
       { s.core with closed := true, wakeupPending := false, conn := none,
                     pendingFree := false, inflight := [],
                     freedEvents := s.core.freedEvents ++
                       (s.core.inflight ++ opIds s.queue),
                     freeCalls := s.core.freeCalls + 1,
                     loopStopped := true }⟩ := by
  obtain ⟨q, c⟩ := s
  obtain ⟨cl, cn, sdl, no, nt, infl, fe, fc, pf, wp, ls⟩ := c
  simp only at hcl hcn hpf hls hq
  subst hcl hpf hls
  have hd := drainLoop_ops q
    { closed := true, conn := cn, scp_data_length := sdl,
      n_outstanding := no, n_tries := nt, inflight := infl,
      freedEvents := fe, freeCalls := fc, pendingFree := false,
      wakeupPending := false, loopStopped := false }
    (by simpa using hcn) hq
  have e1 : engineStep
      ⟨q,
       { closed := true, conn := cn, scp_data_length := sdl,
         n_outstanding := no, n_tries := nt, inflight := infl,
         freedEvents := fe, freeCalls := fc, pendingFree := false,
         wakeupPending := true, loopStopped := false }⟩ =
      some
      ⟨[],
       { closed := true, conn := none, scp_data_length := sdl,
         n_outstanding := no, n_tries := nt, inflight := [],
         freedEvents := fe ++ (infl ++ opIds q), freeCalls := fc + 1,
         pendingFree := true, wakeupPending := false,
         loopStopped := false }⟩ := by
    simp [engineStep, onWakeup, hd, rs_free]
  have e2 : engineStep
      ⟨[],
       { closed := true, conn := none, scp_data_length := sdl,
         n_outstanding := no, n_tries := nt, inflight := [],
         freedEvents := fe ++ (infl ++ opIds q), freeCalls := fc + 1,
         pendingFree := true, wakeupPending := false,
         loopStopped := false }⟩ =
      some
      ⟨[],
       { closed := true, conn := none, scp_data_length := sdl,
         n_outstanding := no, n_tries := nt, inflight := [],
         freedEvents := fe ++ (infl ++ opIds q), freeCalls := fc + 1,
         pendingFree := false, wakeupPending := false,
         loopStopped := true }⟩ := by
    simp [engineStep, onFree]
  have h1 : close
      ⟨q,
       { closed := false, conn := cn, scp_data_length := sdl,
         n_outstanding := no, n_tries := nt, inflight := infl,
         freedEvents := fe, freeCalls := fc, pendingFree := false,
         wakeupPending := wp, loopStopped := false }⟩ =
      runEngine 3
      ⟨[],
       { closed := true, conn := none, scp_data_length := sdl,
         n_outstanding := no, n_tries := nt, inflight := [],
         freedEvents := fe ++ (infl ++ opIds q), freeCalls := fc + 1,
         pendingFree := true, wakeupPending := false,
         loopStopped := false }⟩ :=
    runEngine_step 3 _ _ e1
  rw [h1, runEngine_step 2 _ _ e2, runEngine_stopped 2 _ rfl]

/-- Counterexample to claim C3 as stated: from a reachable state (two
submissions from a fresh connection: a `scp_data_length` setter, then an
operation), `close` does not drain the intake queue and does not free the
engine after the queue is empty.  The queued setter itself frees the engine
while the operation is still queued; `_on_free` then sees the closed flag
and stops the loop immediately, so close returns (loop stopped) with the
operation still in the queue, never dispatched and never completed. -/
theorem close_with_queued_reconfigure_cex :
    (submit ⟨[], freshCore⟩ (.setScpDataLength 5)).toOption =
      some ⟨[.setScpDataLength 5], wakeup_signal freshCore⟩ ∧
    (submit ⟨[.setScpDataLength 5], wakeup_signal freshCore⟩
      (.op 7)).toOption = some reconfThenOpState ∧
    (close reconfThenOpState).core.loopStopped = true ∧
    (close reconfThenOpState).core.freeCalls = 1 ∧
    (close reconfThenOpState).queue = [.op 7] ∧
    (close reconfThenOpState).core.freedEvents = [] := by
  decide

/-- Claim C3 (amended): provided the engine is not already being torn down
and every task in the intake queue is a submission (no reconfiguration
task is queued), `close` sets the closed flag and wakes the engine; the
engine thread drains the intake queue, frees the engine exactly once after
the queue is empty — which completes every in-flight request (including
the ones just admitted from the queue) with the FREED error — stops the
event loop, and close returns only after the loop has stopped (the
background thread has joined).  A queued reconfiguration task breaks this:
see the counterexample. -/
theorem close_drains_frees_once_stops (s : ConnState)
    (hcl : s.core.closed = false) (hcn : s.core.conn.isSome = true)
    (hpf : s.core.pendingFree = false) (hls : s.core.loopStopped = false)
    (hq : ∀ t ∈ s.queue, t.isOp = true) :
    (close s).core.closed = true ∧
    (close s).queue = [] ∧
    (close s).core.freeCalls = s.core.freeCalls + 1 ∧
    (close s).core.conn = none ∧
    (close s).core.inflight = [] ∧
    (close s).core.freedEvents =
      s.core.freedEvents ++ (s.core.inflight ++ opIds s.queue) ∧
    (close s).core.loopStopped = true := by
  rw [close_ops_spec s hcl hcn hpf hls hq]
  exact ⟨rfl, rfl, rfl, rfl, rfl, rfl, rfl⟩

/-- Witness for the amended C3 at a fresh connection with one queued
operation: closing frees once, completes the admitted request with FREED,
empties the queue and stops the loop. -/
theorem close_drains_frees_once_stops_witness :
    (close ⟨[.op 3], freshCore⟩).core.freeCalls = 1 ∧
    (close ⟨[.op 3], freshCore⟩).queue = [] ∧
    (close ⟨[.op 3], freshCore⟩).core.freedEvents = [3] ∧
    (close ⟨[.op 3], freshCore⟩).core.loopStopped = true := by
  have h := close_drains_frees_once_stops ⟨[.op 3], freshCore⟩ rfl rfl rfl
    rfl (fun t ht => by rw [List.mem_singleton.mp ht]; rfl)
  exact ⟨h.2.2.1, h.2.1, by simpa using h.2.2.2.2.2.1, h.2.2.2.2.2.2⟩

/-- Claim C4: a submission (`send_scp`, `write`, `read` or either setter,
all wrapped by `_execute_in_bg_thread`) made after the closed flag is set
raises `IOError("CSCPConnection closed!")` synchronously and produces no
state change (no task is appended, no wakeup is signalled); before close,
the same call appends exactly one zero-argument closure to the intake
queue under the lock and signals the wakeup handle. -/
theorem submit_closed_raises_else_enqueues (s : ConnState) (t : Task) :
    (s.core.closed = true →
      submit s t = .error "CSCPConnection closed!") ∧
    (s.core.closed = false →
      submit s t = .ok ⟨s.queue ++ [t], wakeup_signal s.core⟩ ∧
      (s.queue ++ [t]).length = s.queue.length + 1 ∧
      (wakeup_signal s.core).wakeupPending = true) := by
  constructor
  · intro h
    simp [submit, h]
  · intro h
    exact ⟨by simp [submit, h], by simp, rfl⟩

/-- Witness for C4: submitting against a closed fresh connection errors;
submitting against the open one enqueues the single task and signals. -/
theorem submit_closed_raises_else_enqueues_witness :
    submit ⟨[], { freshCore with closed := true }⟩ (.op 1) =
      .error "CSCPConnection closed!" ∧
    submit ⟨[], freshCore⟩ (.op 1) = .ok ⟨[.op 1], wakeup_signal freshCore⟩ :=
  ⟨(submit_closed_raises_else_enqueues
      ⟨[], { freshCore with closed := true }⟩ (.op 1)).1 rfl,
   by
    have h := (submit_closed_raises_else_enqueues ⟨[], freshCore⟩
      (.op 1)).2 rfl
    simpa using h.1⟩

/-- Claim C5: setting `scp_data_length` (resp. `n_outstanding`) stores the
new value and frees the current engine; while the engine is torn down
(`conn = none`) no queued task is ever executed (neither by the drain loop
nor by a wakeup); and when the free completes on a connection that is not
closed, the engine is re-created with the new parameter value and the
intake queue is then drained, so tasks queued during teardown are
dispatched after recreation. -/
theorem reconfigure_teardown_recreate (c : Core) (v : Nat) (q : List Task)
    (hcl : c.closed = false) (hq : ∀ t ∈ q, t.isOp = true) :
    runTask (.setScpDataLength v) c =
      { c with scp_data_length := v, conn := none, pendingFree := true,
               freeCalls := c.freeCalls + 1,
               freedEvents := c.freedEvents ++ c.inflight,
               inflight := [] } ∧
    runTask (.setNOutstanding v) c =
      { c with n_outstanding := v, conn := none, pendingFree := true,
               freeCalls := c.freeCalls + 1,
               freedEvents := c.freedEvents ++ c.inflight,
               inflight := [] } ∧
    (∀ (q2 : List Task) (c2 : Core), c2.conn = none →
      drainLoop q2 c2 = (q2, c2)) ∧
    (∀ (q2 : List Task) (c2 : Core), c2.conn = none → c2.closed = false →
      onWakeup ⟨q2, c2⟩ = ⟨q2, c2⟩) ∧
    (onFree ⟨q, { runTask (.setScpDataLength v) c with
                  pendingFree := false }⟩).queue = [] ∧
    (onFree ⟨q, { runTask (.setScpDataLength v) c with
                  pendingFree := false }⟩).core.conn =
      some ⟨v, c.n_outstanding, c.n_tries⟩ ∧
    (onFree ⟨q, { runTask (.setScpDataLength v) c with
                  pendingFree := false }⟩).core.inflight = opIds q ∧
    (onFree ⟨q, { runTask (.setScpDataLength v) c with
                  pendingFree := false }⟩).core.scp_data_length = v := by
  obtain ⟨cl, cn, sdl, no, nt, infl, fe, fc, pf, wp, ls⟩ := c
  simp only at hcl
  subst hcl
  have hd := drainLoop_ops q
    { closed := false, conn := some ⟨v, no, nt⟩, scp_data_length := v,
      n_outstanding := no, n_tries := nt, inflight := [],
      freedEvents := fe ++ infl, freeCalls := fc + 1,
      pendingFree := false, wakeupPending := wp, loopStopped := ls }
    rfl hq
  refine ⟨rfl, rfl, drainLoop_none, ?_, ?_⟩
  · intro q2 c2 h1 h2
    unfold onWakeup
    rw [drainLoop_none q2 c2 h1]
    simp [h2]
  · show (onWakeup _).queue = [] ∧ _
    unfold onFree
    simp only [runTask, rs_free, rs_init]
    rw [show (false : Bool) = false from rfl] at *
    simp only [if_neg (by simp : ¬(false = true))]
    rw [show onWakeup
        ⟨q,
         { closed := false, conn := some ⟨v, no, nt⟩,
           scp_data_length := v, n_outstanding := no, n_tries := nt,
           inflight := [], freedEvents := fe ++ infl,
           freeCalls := fc + 1, pendingFree := false,
           wakeupPending := wp, loopStopped := ls }⟩ =
        ⟨[],
         { closed := false, conn := some ⟨v, no, nt⟩,
           scp_data_length := v, n_outstanding := no, n_tries := nt,
           inflight := [] ++ opIds q, freedEvents := fe ++ infl,
           freeCalls := fc + 1, pendingFree := false,
           wakeupPending := wp, loopStopped := ls }⟩
      from by unfold onWakeup; rw [hd]; simp]
    simp

/-- Witness for C5 at a fresh connection with one in-flight request:
setting `scp_data_length := 5` tears the engine down; delivering the free
with one operation queued re-creates the engine with the new value and
dispatches the queued operation. -/
theorem reconfigure_teardown_recreate_witness :
    (runTask (.setScpDataLength 5)
      { freshCore with inflight := [9] }).conn = none ∧
    (onFree ⟨[.op 7], { runTask (.setScpDataLength 5)
        { freshCore with inflight := [9] } with
        pendingFree := false }⟩).core.conn = some ⟨5, 1, 5⟩ ∧
    (onFree ⟨[.op 7], { runTask (.setScpDataLength 5)
        { freshCore with inflight := [9] } with
        pendingFree := false }⟩).queue = [] ∧
    (onFree ⟨[.op 7], { runTask (.setScpDataLength 5)
        { freshCore with inflight := [9] } with
        pendingFree := false }⟩).core.inflight = opIds [.op 7] := by
  have h := reconfigure_teardown_recreate { freshCore with inflight := [9] }
    5 [.op 7] rfl (fun t ht => by rw [List.mem_singleton.mp ht]; rfl)
  exact ⟨congrArg Core.conn h.1, h.2.2.2.2.2.1, h.2.2.2.2.1,
    h.2.2.2.2.2.2.1⟩

/-- Claim C9: a second (or any further) `close` on a connection that has
completed a close (closed flag set, event loop stopped, thread terminated)
has the same externally observable effect as the first: the closed flag
stays set, no additional teardown, FREED completion or callback occurs,
and the call returns after joining the already-terminated thread.
Moreover, from a normally operating state with only submissions queued,
closing twice is observably the same as closing once. -/
theorem close_idempotent :
    (∀ s : ConnState, s.core.closed = true → s.core.loopStopped = true →
      observables (close s) = observables s) ∧
    (∀ s : ConnState, s.core.closed = false → s.core.conn.isSome = true →
      s.core.pendingFree = false → s.core.loopStopped = false →
      (∀ t ∈ s.queue, t.isOp = true) →
      observables (close (close s)) = observables (close s)) := by
  constructor
  · exact close_of_stopped
  · intro s h1 h2 h3 h4 h5
    rw [close_ops_spec s h1 h2 h3 h4 h5]
    exact close_of_stopped _ rfl rfl

/-- Witness for C9: a closed, joined fresh connection is observably
unchanged by another `close`. -/
theorem close_idempotent_witness :
    observables (close
      ⟨[], { freshCore with closed := true, loopStopped := true }⟩) =
    observables
      ⟨[], { freshCore with closed := true, loopStopped := true }⟩ :=
  close_idempotent.1
    ⟨[], { freshCore with closed := true, loopStopped := true }⟩ rfl rfl

end RigCScp
